import Mathlib

/-!
Verification of the odometry normalization / motion-state classifier and the
LIDAR path-safety classifier of the OM1-Improvement repository.

The Python floating-point arithmetic is modelled over the real numbers.
Sources embedded here:
  * src/providers/odom_provider_base.py   (OdomProviderBase)
  * src/providers/tron_odom_provider.py   (TronOdomProvider)
  * src/providers/unitree_go2_odom_provider.py (UnitreeGo2OdomProvider)
  * src/providers/unitree_g1_odom_provider.py  (UnitreeG1OdomProvider)
  * src/providers/turtlebot4_odom_provider.py  (TurtleBot4OdomProvider)
  * src/providers/turtlebot4_rplidar_provider.py (TurtleBot4RPLidarProvider)
-/

noncomputable section

open Real

/-- Python math.atan2(y, x): the angle of the point (x, y), in (-pi, pi].
Modelled by the argument of the complex number x + y*I. -/
def atan2 (y x : ℝ) : ℝ := Complex.arg ⟨x, y⟩

/-- Python round(x) rounds to the nearest integer, ties to even
(banker's rounding). -/
def roundHalfEven (x : ℝ) : ℤ :=
  if Int.fract x < 1 / 2 then ⌊x⌋
  else if 1 / 2 < Int.fract x then ⌊x⌋ + 1
  else if Even ⌊x⌋ then ⌊x⌋ else ⌊x⌋ + 1

/-- Python round(x, 4): round to four decimal places. -/
def round4 (x : ℝ) : ℝ := (roundHalfEven (x * 10000) : ℝ) / 10000

/-- Python round(x, 2): round to two decimal places. -/
def round2 (x : ℝ) : ℝ := (roundHalfEven (x * 100) : ℝ) / 100

/-- Mathematical mod on the reals, used to state the yaw-convention
invariant "(360 - yaw) mod 360". -/
def realMod (a b : ℝ) : ℝ := a - b * ⌊a / b⌋

theorem roundHalfEven_intCast (k : ℤ) : roundHalfEven (k : ℝ) = k := by
  simp [roundHalfEven, Int.fract_intCast]

theorem round4_int_div (k : ℤ) : round4 ((k : ℝ) / 10000) = (k : ℝ) / 10000 := by
  have h : ((k : ℝ) / 10000) * 10000 = (k : ℝ) := by ring
  rw [round4, h, roundHalfEven_intCast]

theorem roundHalfEven_le (x : ℝ) : (roundHalfEven x : ℝ) ≤ x + 1 := by
  unfold roundHalfEven
  have h1 := Int.floor_le x
  split
  · linarith
  · split
    · push_cast; linarith
    · split
      · linarith
      · push_cast; linarith

theorem le_roundHalfEven (x : ℝ) : x - 1 ≤ (roundHalfEven x : ℝ) := by
  unfold roundHalfEven
  have h1 := Int.lt_floor_add_one x
  split
  · linarith
  · split
    · push_cast; linarith
    · split
      · linarith
      · push_cast; linarith

theorem round4_abs_le (x B : ℝ) (h : |x| ≤ B) : |round4 x| ≤ B + 1 / 10000 := by
  have h1 := roundHalfEven_le (x * 10000)
  have h2 := le_roundHalfEven (x * 10000)
  have hx1 : x ≤ B := (abs_le.mp h).2
  have hx2 : -B ≤ x := (abs_le.mp h).1
  rw [round4, abs_le]
  constructor
  · nlinarith
  · nlinarith

theorem round4_exists_int (x : ℝ) : ∃ k : ℤ, round4 x = (k : ℝ) / 10000 :=
  ⟨roundHalfEven (x * 10000), rfl⟩

/-- Robot body attitude (RobotState in odom_provider_base.py). -/
inductive RobotState
  | standing
  | sitting
deriving DecidableEq

/-- Global constant rad_to_deg = 57.2958 in odom_provider_base.py. -/
def rad_to_deg : ℝ := 57.2958

/-- A 3D position (pose.position with fields x, y, z). -/
structure Position3 where
  x : ℝ
  y : ℝ
  z : ℝ

/-- A quaternion orientation (pose.orientation with fields x, y, z, w). -/
structure QuaternionMsg where
  x : ℝ
  y : ℝ
  z : ℝ
  w : ℝ

/-- The pose carried by an odometry message. The Python code resolves
PoseWithCovarianceStamped (pose.pose) versus PoseStamped (pose) to this
single shape before reading fields. -/
structure PoseMsg where
  position : Position3
  orientation : QuaternionMsg

/-- A ROS-style header stamp with integer seconds and nanoseconds. -/
structure StampMsg where
  sec : ℤ
  nanosec : ℤ

/-- One odometry message drained from the queue by process_odom. -/
structure OdomMsg where
  header_stamp : StampMsg
  pose : PoseMsg

/-- One SportModeState message consumed by the Unitree G1 variant:
stamp, position array [x, y, z] and the IMU roll-pitch-yaw triple of
which only rpy[2] (yaw, radians) is read. -/
structure G1SportMsg where
  stamp : StampMsg
  position : Position3
  imu_rpy_yaw : ℝ

/-- The mutable state of OdomProviderBase that process_odom reads and
writes (the motion/attitude classifier state). The Python boolean
self.moving is modelled as a proposition. -/
structure OdomState where
  body_height_cm : ℤ
  body_attitude : Option RobotState
  moving : Prop
  previous_x : ℝ
  previous_y : ℝ
  previous_z : ℝ
  move_history : ℝ
  x : ℝ
  y : ℝ
  z : ℝ
  odom_yaw_0_360 : ℝ
  odom_yaw_m180_p180 : ℝ
  odom_rockchip_ts : ℝ
  odom_subscriber_ts : ℝ

/-- The initial field values set in OdomProviderBase.__init__ (lines 41-56):
heights 0, attitude None, not moving, previous position (0,0,0),
move_history 0, everything else 0. -/
def initOdomState : OdomState :=
  { body_height_cm := 0
    body_attitude := none
    moving := False
    previous_x := 0
    previous_y := 0
    previous_z := 0
    move_history := 0
    x := 0
    y := 0
    z := 0
    odom_yaw_0_360 := 0
    odom_yaw_m180_p180 := 0
    odom_rockchip_ts := 0
    odom_subscriber_ts := 0 }

/-- euler_from_quaternion of OdomProviderBase (lines 66-104): the standard
atan2/asin formulation, with the asin argument clamped to [-1, 1]. -/
def euler_from_quaternion (x y z w : ℝ) : ℝ × ℝ × ℝ :=
  let t0 := 2 * (w * x + y * z)
  let t1 := 1 - 2 * (x * x + y * y)
  let roll_x := atan2 t0 t1
  let t2 := 2 * (w * y - z * x)
  let t2a := if t2 > 1 then 1 else t2
  let t2b := if t2a < -1 then -1 else t2a
  let pitch_y := Real.arcsin t2b
  let t3 := 2 * (w * z + x * y)
  let t4 := 1 - 2 * (y * y + z * z)
  let yaw_z := atan2 t3 t4
  (roll_x, pitch_y, yaw_z)

/-- A body-state hook: the per-robot override of _update_body_state,
invoked by process_odom with the current pose. -/
def BodyHook : Type := PoseMsg → OdomState → OdomState

/-- The base-class _update_body_state (lines 188-200): a no-op. -/
def defaultBodyHook : BodyHook := fun _ s => s

/-- TronOdomProvider._update_body_state (lines 135-153):
body_height_cm = round(z * 100); above 60 cm standing, above 3 cm
sitting, otherwise the attitude field is not written. -/
def tronBodyHook : BodyHook := fun p s =>
  let h := roundHalfEven (p.position.z * 100)
  let s1 := { s with body_height_cm := h }
  if h > 60 then { s1 with body_attitude := some RobotState.standing }
  else if h > 3 then { s1 with body_attitude := some RobotState.sitting }
  else s1

/-- UnitreeGo2OdomProvider._update_body_state (lines 137-151): same shape
with thresholds 24 cm and 3 cm. -/
def go2BodyHook : BodyHook := fun p s =>
  let h := roundHalfEven (p.position.z * 100)
  let s1 := { s with body_height_cm := h }
  if h > 24 then { s1 with body_attitude := some RobotState.standing }
  else if h > 3 then { s1 with body_attitude := some RobotState.sitting }
  else s1

/-- The Euclidean position delta computed by process_odom (lines 144-152):
sqrt of the sum of the squared coordinate differences between the
incoming pose position and the stored previous position. -/
def deltaOf (msg : OdomMsg) (s : OdomState) : ℝ :=
  Real.sqrt ((msg.pose.position.x - s.previous_x) ^ 2
    + (msg.pose.position.y - s.previous_y) ^ 2
    + (msg.pose.position.z - s.previous_z) ^ 2)

/-- One iteration of OdomProviderBase.process_odom (lines 106-186) for a
single dequeued message, parameterized by the body-state hook and by the
local wall-clock reading (time.time()). Mirrors the source order:
timestamps, body-state hook, movement delta and decay kernel, moving
flag, Euler conversion, the two yaw conventions, rounded position. -/
def processOdomMsg (hook : BodyHook) (now : ℝ) (msg : OdomMsg) (s : OdomState) : OdomState :=
  let s0 := { s with
    odom_rockchip_ts := (msg.header_stamp.sec : ℝ) + (msg.header_stamp.nanosec : ℝ) * 1e-9
    odom_subscriber_ts := now }
  let s1 := hook msg.pose s0
  let qx := msg.pose.orientation.x
  let qy := msg.pose.orientation.y
  let qz := msg.pose.orientation.z
  let qw := msg.pose.orientation.w
  let dx := (msg.pose.position.x - s1.previous_x) ^ 2
  let dy := (msg.pose.position.y - s1.previous_y) ^ 2
  let dz := (msg.pose.position.z - s1.previous_z) ^ 2
  let delta := Real.sqrt (dx + dy + dz)
  let mh := 0.7 * delta + 0.3 * s1.move_history
  let angles := euler_from_quaternion qx qy qz qw
  let ym := round4 (angles.2.2 * rad_to_deg)
  let flip := -1 * ym
  let flip2 := if flip < 0 then flip + 360 else flip
  { s1 with
    previous_x := msg.pose.position.x
    previous_y := msg.pose.position.y
    previous_z := msg.pose.position.z
    move_history := mh
    moving := delta > 0.01 ∨ mh > 0.01
    odom_yaw_m180_p180 := ym
    odom_yaw_0_360 := round4 flip2
    x := round4 msg.pose.position.x
    y := round4 msg.pose.position.y }

/-- One iteration of UnitreeG1OdomProvider.process_odom (lines 137-209)
for a single dequeued SportModeState message: position from the array,
the same delta/decay/moving logic, yaw taken directly from
imu_state.rpy[2], the same two yaw conventions, rounded x, y and z, and
body_attitude forced to standing. -/
def processOdomG1Msg (now : ℝ) (g : G1SportMsg) (s : OdomState) : OdomState :=
  let s0 := { s with
    odom_rockchip_ts := (g.stamp.sec : ℝ) + (g.stamp.nanosec : ℝ) * 1e-9
    odom_subscriber_ts := now }
  let dx := (g.position.x - s0.previous_x) ^ 2
  let dy := (g.position.y - s0.previous_y) ^ 2
  let dz := (g.position.z - s0.previous_z) ^ 2
  let delta := Real.sqrt (dx + dy + dz)
  let mh := 0.7 * delta + 0.3 * s0.move_history
  let yaw_rad := g.imu_rpy_yaw
  let ym := round4 (yaw_rad * rad_to_deg)
  let flip := -1 * ym
  let flip2 := if flip < 0 then flip + 360 else flip
  { s0 with
    previous_x := g.position.x
    previous_y := g.position.y
    previous_z := g.position.z
    move_history := mh
    moving := delta > 0.01 ∨ mh > 0.01
    odom_yaw_m180_p180 := ym
    odom_yaw_0_360 := round4 flip2
    x := round4 g.position.x
    y := round4 g.position.y
    z := round4 g.position.z
    body_attitude := some RobotState.standing }

theorem hook_fields_processOdomMsg (hook : BodyHook) (now : ℝ) (msg : OdomMsg) (s : OdomState) :
    (processOdomMsg hook now msg s).body_height_cm
      = (hook msg.pose { s with
          odom_rockchip_ts := (msg.header_stamp.sec : ℝ) + (msg.header_stamp.nanosec : ℝ) * 1e-9
          odom_subscriber_ts := now }).body_height_cm
    ∧ (processOdomMsg hook now msg s).body_attitude
      = (hook msg.pose { s with
          odom_rockchip_ts := (msg.header_stamp.sec : ℝ) + (msg.header_stamp.nanosec : ℝ) * 1e-9
          odom_subscriber_ts := now }).body_attitude := by
  constructor <;> rfl

theorem tronBodyHook_height (p : PoseMsg) (s : OdomState) :
    (tronBodyHook p s).body_height_cm = roundHalfEven (p.position.z * 100) := by
  simp only [tronBodyHook]
  split_ifs <;> rfl

theorem tronBodyHook_attitude (p : PoseMsg) (s : OdomState) :
    (tronBodyHook p s).body_attitude
      = (if roundHalfEven (p.position.z * 100) > 60 then some RobotState.standing
         else if roundHalfEven (p.position.z * 100) > 3 then some RobotState.sitting
         else s.body_attitude) := by
  simp only [tronBodyHook]
  split_ifs <;> rfl

theorem go2BodyHook_height (p : PoseMsg) (s : OdomState) :
    (go2BodyHook p s).body_height_cm = roundHalfEven (p.position.z * 100) := by
  simp only [go2BodyHook]
  split_ifs <;> rfl

theorem go2BodyHook_attitude (p : PoseMsg) (s : OdomState) :
    (go2BodyHook p s).body_attitude
      = (if roundHalfEven (p.position.z * 100) > 24 then some RobotState.standing
         else if roundHalfEven (p.position.z * 100) > 3 then some RobotState.sitting
         else s.body_attitude) := by
  simp only [go2BodyHook]
  split_ifs <;> rfl

theorem flip_eq_realMod (y : ℝ) (k : ℤ) (hk : y = (k : ℝ) / 10000) (hb : |y| < 360) :
    round4 (if -1 * y < 0 then -1 * y + 360 else -1 * y) = realMod (360 - y) 360 := by
  have hylt : y < 360 := lt_of_le_of_lt (le_abs_self y) hb
  have hygt : -360 < y := by
    have := neg_abs_le y
    linarith [abs_lt.mp hb]
  by_cases hy : -1 * y < 0
  · have hypos : 0 < y := by linarith
    rw [if_pos hy]
    have he : -1 * y + 360 = ((3600000 - k : ℤ) : ℝ) / 10000 := by
      push_cast
      rw [hk]
      ring
    rw [he, round4_int_div, realMod]
    have hfl : ⌊(360 - y) / 360⌋ = 0 := by
      rw [Int.floor_eq_zero_iff]
      constructor
      · apply div_nonneg (by linarith) (by norm_num)
      · rw [div_lt_one (by norm_num : (0:ℝ) < 360)]
        linarith
    rw [hfl]
    push_cast
    rw [hk]
    ring
  · have hyneg : y ≤ 0 := by linarith [not_lt.mp hy]
    rw [if_neg hy]
    have he : -1 * y = ((-k : ℤ) : ℝ) / 10000 := by
      push_cast
      rw [hk]
      ring
    rw [he, round4_int_div, realMod]
    have hfl : ⌊(360 - y) / 360⌋ = 1 := by
      rw [Int.floor_eq_iff]
      constructor
      · push_cast
        rw [le_div_iff (by norm_num : (0:ℝ) < 360)]
        linarith
      · push_cast
        rw [div_lt_iff (by norm_num : (0:ℝ) < 360)]
        linarith
    rw [hfl]
    push_cast
    rw [hk]
    ring

theorem yaw_pair_agree (yr : ℝ) (h : |yr| ≤ π) :
    round4 (if -1 * round4 (yr * rad_to_deg) < 0
            then -1 * round4 (yr * rad_to_deg) + 360
            else -1 * round4 (yr * rad_to_deg))
      = realMod (360 - round4 (yr * rad_to_deg)) 360 := by
  obtain ⟨k, hk⟩ := round4_exists_int (yr * rad_to_deg)
  have hbound : |round4 (yr * rad_to_deg)| < 360 := by
    have h1 : |yr * rad_to_deg| ≤ 4 * 57.2958 := by
      rw [abs_mul]
      have h2 : |yr| ≤ 4 := le_trans h Real.pi_le_four
      have h3 : |rad_to_deg| = 57.2958 := by
        rw [rad_to_deg, abs_of_pos]
        norm_num
      rw [h3]
      nlinarith [abs_nonneg yr]
    have h4 := round4_abs_le (yr * rad_to_deg) (4 * 57.2958) h1
    calc |round4 (yr * rad_to_deg)| ≤ 4 * 57.2958 + 1 / 10000 := h4
      _ < 360 := by norm_num
  exact flip_eq_realMod _ k hk hbound

/-- The yaw field of euler_from_quaternion lies in (-pi, pi] since it is
produced by atan2. -/
theorem euler_yaw_abs_le_pi (x y z w : ℝ) :
    |(euler_from_quaternion x y z w).2.2| ≤ π := by
  simp only [euler_from_quaternion, atan2]
  rw [abs_le]
  constructor
  · exact le_of_lt (Complex.neg_pi_lt_arg _)
  · exact Complex.arg_le_pi _

/-- C5. After every odometry update, in both the quaternion-based variant
(OdomProviderBase.process_odom) and the IMU-RPY-based variant
(UnitreeG1OdomProvider.process_odom, given an IMU yaw in the standard
(-pi, pi] range), the stored yaw_0_360 equals (360 - yaw_m180_p180) mod
360: the two yaw fields always describe the same physical orientation in
their two conventions. -/
theorem spec_c5_yaw_conventions_agree :
    (∀ (hook : BodyHook) (now : ℝ) (msg : OdomMsg) (s : OdomState),
      (processOdomMsg hook now msg s).odom_yaw_0_360
        = realMod (360 - (processOdomMsg hook now msg s).odom_yaw_m180_p180) 360)
    ∧ (∀ (now : ℝ) (g : G1SportMsg) (s : OdomState),
      -π < g.imu_rpy_yaw → g.imu_rpy_yaw ≤ π →
      (processOdomG1Msg now g s).odom_yaw_0_360
        = realMod (360 - (processOdomG1Msg now g s).odom_yaw_m180_p180) 360) := by
  constructor
  · intro hook now msg s
    have hyaw := euler_yaw_abs_le_pi msg.pose.orientation.x msg.pose.orientation.y
      msg.pose.orientation.z msg.pose.orientation.w
    simpa only [processOdomMsg] using yaw_pair_agree _ hyaw
  · intro now g s h1 h2
    have hyaw : |g.imu_rpy_yaw| ≤ π := abs_le.mpr ⟨le_of_lt h1, h2⟩
    simpa only [processOdomG1Msg] using yaw_pair_agree _ hyaw

/-- Witness for C5: the G1 variant applied to a concrete SportModeState
message with IMU yaw 0 (which lies in (-pi, pi]). -/
theorem spec_c5_yaw_conventions_agree_witness :
    (processOdomG1Msg 0 ⟨⟨0, 0⟩, ⟨0, 0, 0⟩, 0⟩ initOdomState).odom_yaw_0_360
      = realMod (360 - (processOdomG1Msg 0 ⟨⟨0, 0⟩, ⟨0, 0, 0⟩, 0⟩ initOdomState).odom_yaw_m180_p180) 360 :=
  spec_c5_yaw_conventions_agree.2 0 ⟨⟨0, 0⟩, ⟨0, 0, 0⟩, 0⟩ initOdomState
    (neg_lt_zero.mpr Real.pi_pos) Real.pi_nonneg

theorem roundHalfEven_real_eq (x : ℝ) (k : ℤ) (h : x = (k : ℝ)) : roundHalfEven x = k := by
  rw [h, roundHalfEven_intCast]

/-- C8 counterexample. Feed the Tron body-state hook a 71 cm sample (it
classifies standing) followed by a 2 cm sample: 2 is neither above 60 nor
above 3, yet body_attitude stays standing instead of becoming unset, so
the hook does not classify "else unset" as the claim states. -/
theorem spec_c8_counterexample :
    (tronBodyHook ⟨⟨0, 0, 0.02⟩, ⟨0, 0, 0, 1⟩⟩
      (tronBodyHook ⟨⟨0, 0, 0.71⟩, ⟨0, 0, 0, 1⟩⟩ initOdomState)).body_attitude
      = some RobotState.standing := by
  have h71 : roundHalfEven ((0.71 : ℝ) * 100) = 71 :=
    roundHalfEven_real_eq _ 71 (by norm_num)
  have h02 : roundHalfEven ((0.02 : ℝ) * 100) = 2 :=
    roundHalfEven_real_eq _ 2 (by norm_num)
  rw [tronBodyHook_attitude, tronBodyHook_attitude]
  simp only [h02, h71]
  norm_num

/-- C8, amended. Every ingested sample drives the body-state hook, which
sets body_height_cm = round(z * 100) and classifies: Tron above 60 cm
standing, above 3 cm sitting; Go2 above 24 cm standing, above 3 cm
sitting; otherwise the previous classification is retained (the attitude
is unset only when it was never previously set). -/
theorem spec_c8_body_state_hooks (now : ℝ) (msg : OdomMsg) (s : OdomState) :
    ((processOdomMsg tronBodyHook now msg s).body_height_cm
        = roundHalfEven (msg.pose.position.z * 100)
      ∧ (processOdomMsg tronBodyHook now msg s).body_attitude
        = (if roundHalfEven (msg.pose.position.z * 100) > 60 then some RobotState.standing
           else if roundHalfEven (msg.pose.position.z * 100) > 3 then some RobotState.sitting
           else s.body_attitude))
    ∧ ((processOdomMsg go2BodyHook now msg s).body_height_cm
        = roundHalfEven (msg.pose.position.z * 100)
      ∧ (processOdomMsg go2BodyHook now msg s).body_attitude
        = (if roundHalfEven (msg.pose.position.z * 100) > 24 then some RobotState.standing
           else if roundHalfEven (msg.pose.position.z * 100) > 3 then some RobotState.sitting
           else s.body_attitude)) := by
  refine ⟨⟨?_, ?_⟩, ?_, ?_⟩
  · rw [(hook_fields_processOdomMsg tronBodyHook now msg s).1, tronBodyHook_height]
  · rw [(hook_fields_processOdomMsg tronBodyHook now msg s).2, tronBodyHook_attitude]
  · rw [(hook_fields_processOdomMsg go2BodyHook now msg s).1, go2BodyHook_height]
  · rw [(hook_fields_processOdomMsg go2BodyHook now msg s).2, go2BodyHook_attitude]

/-- All _update_body_state overrides in the repository write only the two
body fields; this property records that a hook leaves the motion-related
fields (previous position and move_history) untouched. -/
def HookPreservesMotion (hook : BodyHook) : Prop :=
  ∀ p t, (hook p t).previous_x = t.previous_x
    ∧ (hook p t).previous_y = t.previous_y
    ∧ (hook p t).previous_z = t.previous_z
    ∧ (hook p t).move_history = t.move_history

theorem defaultBodyHook_preserves : HookPreservesMotion defaultBodyHook :=
  fun _ _ => ⟨rfl, rfl, rfl, rfl⟩

theorem tronBodyHook_preserves : HookPreservesMotion tronBodyHook := by
  intro p t
  simp only [tronBodyHook]
  split_ifs <;> exact ⟨rfl, rfl, rfl, rfl⟩

theorem go2BodyHook_preserves : HookPreservesMotion go2BodyHook := by
  intro p t
  simp only [go2BodyHook]
  split_ifs <;> exact ⟨rfl, rfl, rfl, rfl⟩

theorem processOdomMsg_move_history (hook : BodyHook) (hpres : HookPreservesMotion hook)
    (now : ℝ) (msg : OdomMsg) (s : OdomState) :
    (processOdomMsg hook now msg s).move_history
      = 0.7 * deltaOf msg s + 0.3 * s.move_history := by
  obtain ⟨hx, hy, hz, hm⟩ := hpres msg.pose { s with
    odom_rockchip_ts := (msg.header_stamp.sec : ℝ) + (msg.header_stamp.nanosec : ℝ) * 1e-9
    odom_subscriber_ts := now }
  simp only [processOdomMsg, deltaOf]
  rw [hx, hy, hz, hm]

theorem processOdomMsg_moving_eq (hook : BodyHook) (hpres : HookPreservesMotion hook)
    (now : ℝ) (msg : OdomMsg) (s : OdomState) :
    (processOdomMsg hook now msg s).moving
      = (deltaOf msg s > 0.01 ∨ 0.7 * deltaOf msg s + 0.3 * s.move_history > 0.01) := by
  obtain ⟨hx, hy, hz, hm⟩ := hpres msg.pose { s with
    odom_rockchip_ts := (msg.header_stamp.sec : ℝ) + (msg.header_stamp.nanosec : ℝ) * 1e-9
    odom_subscriber_ts := now }
  simp only [processOdomMsg, deltaOf]
  rw [hx, hy, hz, hm]

theorem processOdomMsg_previous (hook : BodyHook) (now : ℝ) (msg : OdomMsg) (s : OdomState) :
    (processOdomMsg hook now msg s).previous_x = msg.pose.position.x
    ∧ (processOdomMsg hook now msg s).previous_y = msg.pose.position.y
    ∧ (processOdomMsg hook now msg s).previous_z = msg.pose.position.z :=
  ⟨rfl, rfl, rfl⟩

theorem deltaOf_self (msg : OdomMsg) (s : OdomState)
    (hx : msg.pose.position.x = s.previous_x) (hy : msg.pose.position.y = s.previous_y)
    (hz : msg.pose.position.z = s.previous_z) : deltaOf msg s = 0 := by
  simp [deltaOf, hx, hy, hz]

theorem iterate_same_msg (hook : BodyHook) (hpres : HookPreservesMotion hook)
    (now : ℝ) (msg : OdomMsg) (s : OdomState)
    (hx : msg.pose.position.x = s.previous_x) (hy : msg.pose.position.y = s.previous_y)
    (hz : msg.pose.position.z = s.previous_z) :
    ∀ n : ℕ, ((processOdomMsg hook now msg)^[n] s).previous_x = s.previous_x
      ∧ ((processOdomMsg hook now msg)^[n] s).previous_y = s.previous_y
      ∧ ((processOdomMsg hook now msg)^[n] s).previous_z = s.previous_z
      ∧ ((processOdomMsg hook now msg)^[n] s).move_history = 0.3 ^ n * s.move_history := by
  intro n
  induction n with
  | zero => simp
  | succ n ih =>
    obtain ⟨ih1, ih2, ih3, ih4⟩ := ih
    rw [Function.iterate_succ_apply']
    have hdx : msg.pose.position.x = ((processOdomMsg hook now msg)^[n] s).previous_x := by
      rw [ih1, hx]
    have hdy : msg.pose.position.y = ((processOdomMsg hook now msg)^[n] s).previous_y := by
      rw [ih2, hy]
    have hdz : msg.pose.position.z = ((processOdomMsg hook now msg)^[n] s).previous_z := by
      rw [ih3, hz]
    have hd0 := deltaOf_self msg _ hdx hdy hdz
    refine ⟨?_, ?_, ?_, ?_⟩
    · rw [(processOdomMsg_previous hook now msg _).1, hx]
    · rw [(processOdomMsg_previous hook now msg _).2.1, hy]
    · rw [(processOdomMsg_previous hook now msg _).2.2, hz]
    · rw [processOdomMsg_move_history hook hpres now msg _, hd0, ih4]
      ring

theorem exists_decay_bound (m : ℝ) : ∃ N : ℕ, ∀ n ≥ N, (0.3 : ℝ) ^ n * m < 0.01 := by
  obtain ⟨n0, hn0⟩ := exists_pow_lt_of_lt_one
    (show (0 : ℝ) < 0.01 / (|m| + 1) by positivity) (show (0.3 : ℝ) < 1 by norm_num)
  refine ⟨n0, fun n hn => ?_⟩
  have hb : (0 : ℝ) ≤ 0.3 ^ n0 := by positivity
  have ha : (0 : ℝ) ≤ 0.3 ^ n := by positivity
  have hab : (0.3 : ℝ) ^ n ≤ 0.3 ^ n0 :=
    pow_le_pow_of_le_one (by norm_num) (by norm_num) hn
  have hx : (0.3 : ℝ) ^ n0 * (|m| + 1) < 0.01 :=
    (lt_div_iff (by positivity)).mp hn0
  calc (0.3 : ℝ) ^ n * m ≤ 0.3 ^ n * |m| :=
        mul_le_mul_of_nonneg_left (le_abs_self m) ha
    _ ≤ 0.3 ^ n0 * |m| := mul_le_mul_of_nonneg_right hab (abs_nonneg m)
    _ ≤ 0.3 ^ n0 * (|m| + 1) := mul_le_mul_of_nonneg_left (by linarith) hb
    _ < 0.01 := hx

/-- C4. On every ingested pose sample, process_odom sets move_history to
0.7*delta + 0.3*(previous move_history) where delta is the 3D Euclidean
distance between the new and previous positions, and sets moving exactly
when delta > 0.01 or the updated move_history > 0.01; consequently, on a
run of zero-delta samples the accumulator decays below 0.01 and moving
becomes false. -/
theorem spec_c4_motion_update (hook : BodyHook) (hpres : HookPreservesMotion hook)
    (now : ℝ) (msg : OdomMsg) (s : OdomState) :
    ((processOdomMsg hook now msg s).move_history
        = 0.7 * deltaOf msg s + 0.3 * s.move_history
      ∧ ((processOdomMsg hook now msg s).moving ↔
          deltaOf msg s > 0.01 ∨ (processOdomMsg hook now msg s).move_history > 0.01))
    ∧ (msg.pose.position.x = s.previous_x → msg.pose.position.y = s.previous_y →
        msg.pose.position.z = s.previous_z →
        ∃ N, ∀ n ≥ N, ((processOdomMsg hook now msg)^[n] s).move_history < 0.01
          ∧ ¬ ((processOdomMsg hook now msg)^[n] s).moving) := by
  constructor
  · constructor
    · exact processOdomMsg_move_history hook hpres now msg s
    · rw [processOdomMsg_moving_eq hook hpres now msg s,
        processOdomMsg_move_history hook hpres now msg s]
  · intro hx hy hz
    obtain ⟨N, hN⟩ := exists_decay_bound s.move_history
    refine ⟨N + 1, fun n hn => ?_⟩
    have hiter := iterate_same_msg hook hpres now msg s hx hy hz
    have hmh : ((processOdomMsg hook now msg)^[n] s).move_history
        = 0.3 ^ n * s.move_history := (hiter n).2.2.2
    have hlt : (0.3 : ℝ) ^ n * s.move_history < 0.01 := hN n (by omega)
    constructor
    · rw [hmh]; exact hlt
    · obtain _ | m := n
      · omega
      · rw [Function.iterate_succ_apply']
        have htx : msg.pose.position.x
            = ((processOdomMsg hook now msg)^[m] s).previous_x := by
          rw [(hiter m).1, hx]
        have hty : msg.pose.position.y
            = ((processOdomMsg hook now msg)^[m] s).previous_y := by
          rw [(hiter m).2.1, hy]
        have htz : msg.pose.position.z
            = ((processOdomMsg hook now msg)^[m] s).previous_z := by
          rw [(hiter m).2.2.1, hz]
        have hd0 := deltaOf_self msg _ htx hty htz
        rw [processOdomMsg_moving_eq hook hpres now msg _, hd0, (hiter m).2.2.2]
        rintro (h | h)
        · norm_num at h
        · rw [Function.iterate_succ_apply'] at hmh
          rw [processOdomMsg_move_history hook hpres now msg _, hd0,
            (hiter m).2.2.2] at hmh
          nlinarith [hlt, h]

/-- Witness for C4: the base provider with the no-op hook, fed the
constant pose (0,0,0) equal to the initial previous position. -/
theorem spec_c4_motion_update_witness :
    ∃ N, ∀ n ≥ N,
      ((processOdomMsg defaultBodyHook 0
          ⟨⟨0, 0⟩, ⟨⟨0, 0, 0⟩, ⟨0, 0, 0, 1⟩⟩⟩)^[n] initOdomState).move_history < 0.01
      ∧ ¬ ((processOdomMsg defaultBodyHook 0
          ⟨⟨0, 0⟩, ⟨⟨0, 0, 0⟩, ⟨0, 0, 0, 1⟩⟩⟩)^[n] initOdomState).moving :=
  (spec_c4_motion_update defaultBodyHook defaultBodyHook_preserves 0
    ⟨⟨0, 0⟩, ⟨⟨0, 0, 0⟩, ⟨0, 0, 0, 1⟩⟩⟩ initOdomState).2 rfl rfl rfl

/-- C10. The previous-position fields start at (0,0,0), so the first pose
sample is compared against the origin: a first sample more than 0.01 m
from the origin is classified moving, with move_history seeded to 0.7
times its distance from the origin, and on subsequent identical samples
moving stays true exactly while the decayed accumulator exceeds 0.01,
becoming false after it decays. -/
theorem spec_c10_first_sample (hook : BodyHook) (hpres : HookPreservesMotion hook)
    (now : ℝ) (msg : OdomMsg) (hd : deltaOf msg initOdomState > 0.01) :
    (initOdomState.previous_x = 0 ∧ initOdomState.previous_y = 0
        ∧ initOdomState.previous_z = 0)
    ∧ deltaOf msg initOdomState
        = Real.sqrt (msg.pose.position.x ^ 2 + msg.pose.position.y ^ 2
            + msg.pose.position.z ^ 2)
    ∧ (processOdomMsg hook now msg initOdomState).moving
    ∧ (processOdomMsg hook now msg initOdomState).move_history
        = 0.7 * deltaOf msg initOdomState
    ∧ (∀ n, 2 ≤ n →
        (((processOdomMsg hook now msg)^[n] initOdomState).moving ↔
          0.3 ^ (n - 1) * (0.7 * deltaOf msg initOdomState) > 0.01))
    ∧ ∃ N, ∀ n ≥ N, ¬ ((processOdomMsg hook now msg)^[n] initOdomState).moving := by
  have hmh1 : (processOdomMsg hook now msg initOdomState).move_history
      = 0.7 * deltaOf msg initOdomState := by
    rw [processOdomMsg_move_history hook hpres now msg initOdomState]
    show 0.7 * deltaOf msg initOdomState + 0.3 * (0 : ℝ) = _
    ring
  have hx1 : msg.pose.position.x
      = (processOdomMsg hook now msg initOdomState).previous_x := rfl
  have hy1 : msg.pose.position.y
      = (processOdomMsg hook now msg initOdomState).previous_y := rfl
  have hz1 : msg.pose.position.z
      = (processOdomMsg hook now msg initOdomState).previous_z := rfl
  have hiter := iterate_same_msg hook hpres now msg
    (processOdomMsg hook now msg initOdomState) hx1 hy1 hz1
  have h5 : ∀ n, 2 ≤ n →
      (((processOdomMsg hook now msg)^[n] initOdomState).moving ↔
        0.3 ^ (n - 1) * (0.7 * deltaOf msg initOdomState) > 0.01) := by
    intro n hn
    obtain ⟨m, rfl⟩ : ∃ m, n = m + 2 := ⟨n - 2, by omega⟩
    have e1 : ((processOdomMsg hook now msg)^[m + 2] initOdomState)
        = (processOdomMsg hook now msg)
            ((processOdomMsg hook now msg)^[m]
              (processOdomMsg hook now msg initOdomState)) := by
      have e2 : m + 2 = (m + 1) + 1 := rfl
      rw [e2, Function.iterate_succ_apply, Function.iterate_succ_apply']
    rw [e1]
    have htx : msg.pose.position.x
        = ((processOdomMsg hook now msg)^[m]
            (processOdomMsg hook now msg initOdomState)).previous_x := by
      rw [(hiter m).1, ← hx1]
    have hty : msg.pose.position.y
        = ((processOdomMsg hook now msg)^[m]
            (processOdomMsg hook now msg initOdomState)).previous_y := by
      rw [(hiter m).2.1, ← hy1]
    have htz : msg.pose.position.z
        = ((processOdomMsg hook now msg)^[m]
            (processOdomMsg hook now msg initOdomState)).previous_z := by
      rw [(hiter m).2.2.1, ← hz1]
    have hd0 := deltaOf_self msg _ htx hty htz
    rw [processOdomMsg_moving_eq hook hpres now msg _, hd0, (hiter m).2.2.2, hmh1]
    have harith : 0.7 * (0 : ℝ) + 0.3 * (0.3 ^ m * (0.7 * deltaOf msg initOdomState))
        = 0.3 ^ (m + 2 - 1) * (0.7 * deltaOf msg initOdomState) := by
      have e3 : m + 2 - 1 = m + 1 := rfl
      rw [e3]
      ring
    rw [harith]
    exact or_iff_right (by norm_num)
  refine ⟨⟨rfl, rfl, rfl⟩, ?_, ?_, hmh1, h5, ?_⟩
  · simp [deltaOf, initOdomState]
  · rw [processOdomMsg_moving_eq hook hpres now msg initOdomState]
    exact Or.inl hd
  · obtain ⟨N, hN⟩ := exists_decay_bound (0.7 * deltaOf msg initOdomState)
    refine ⟨N + 2, fun n hn => ?_⟩
    rw [h5 n (by omega)]
    have := hN (n - 1) (by omega)
    linarith

/-- Witness for C10: first sample at (0.03, 0.04, 0), which is 0.05 m
from the origin, more than the 0.01 m threshold. -/
theorem spec_c10_first_sample_witness :
    (processOdomMsg defaultBodyHook 0
      ⟨⟨0, 0⟩, ⟨⟨0.03, 0.04, 0⟩, ⟨0, 0, 0, 1⟩⟩⟩ initOdomState).moving :=
  (spec_c10_first_sample defaultBodyHook defaultBodyHook_preserves 0
    ⟨⟨0, 0⟩, ⟨⟨0.03, 0.04, 0⟩, ⟨0, 0, 0, 1⟩⟩⟩
    (by
      have he : deltaOf ⟨⟨0, 0⟩, ⟨⟨0.03, 0.04, 0⟩, ⟨0, 0, 0, 1⟩⟩⟩ initOdomState
          = Real.sqrt ((0.05 : ℝ) ^ 2) := by
        simp only [deltaOf, initOdomState]
        norm_num
      rw [he, Real.sqrt_sq (by norm_num)]
      norm_num)).2.2.1

/-- Lifecycle state of an odometry provider: whether the acquisition
process (_odom_reader_thread, an mp.Process) and the processing thread
(_odom_processor_thread) are alive, together with counters of how many
times a process or thread object has been created and started. -/
structure OdomLifecycle where
  readerAlive : Bool
  processorAlive : Bool
  readerCreations : ℕ
  processorCreations : ℕ
deriving DecidableEq

/-- TurtleBot4OdomProvider.start (lines 99-128): return if the reader
process is alive; otherwise create and start it, then return if the
processor thread is alive, else create and start it. -/
def turtlebot4Start (s : OdomLifecycle) : OdomLifecycle :=
  if s.readerAlive then s
  else
    let s1 := { s with readerAlive := true, readerCreations := s.readerCreations + 1 }
    if s1.processorAlive then s1
    else { s1 with processorAlive := true,
                   processorCreations := s1.processorCreations + 1 }

/-- UnitreeGo2OdomProvider.start (lines 102-135): like TurtleBot4 but
additionally returns without creating anything when no channel was
configured. -/
def go2Start (hasChannel : Bool) (s : OdomLifecycle) : OdomLifecycle :=
  if s.readerAlive then s
  else if !hasChannel then s
  else
    let s1 := { s with readerAlive := true, readerCreations := s.readerCreations + 1 }
    if s1.processorAlive then s1
    else { s1 with processorAlive := true,
                   processorCreations := s1.processorCreations + 1 }

/-- UnitreeG1OdomProvider.start (lines 102-135): identical control flow
to the Go2 variant (channel check included). -/
def g1Start (hasChannel : Bool) (s : OdomLifecycle) : OdomLifecycle :=
  if s.readerAlive then s
  else if !hasChannel then s
  else
    let s1 := { s with readerAlive := true, readerCreations := s.readerCreations + 1 }
    if s1.processorAlive then s1
    else { s1 with processorAlive := true,
                   processorCreations := s1.processorCreations + 1 }

/-- TronOdomProvider.start (lines 100-133): identical control flow with a
topic check in place of the channel check. -/
def tronStart (hasTopic : Bool) (s : OdomLifecycle) : OdomLifecycle :=
  if s.readerAlive then s
  else if !hasTopic then s
  else
    let s1 := { s with readerAlive := true, readerCreations := s.readerCreations + 1 }
    if s1.processorAlive then s1
    else { s1 with processorAlive := true,
                   processorCreations := s1.processorCreations + 1 }

/-- C9. start() is idempotent on every odometry provider variant: when
the acquisition process is already alive, start() returns with the whole
lifecycle state unchanged (no process or thread creation); independently,
when the processing thread is already alive, no call to start() ever
creates another processing thread. -/
theorem spec_c9_start_idempotent (s : OdomLifecycle) (hasChannel hasTopic : Bool) :
    (s.readerAlive = true →
      turtlebot4Start s = s ∧ go2Start hasChannel s = s
        ∧ g1Start hasChannel s = s ∧ tronStart hasTopic s = s)
    ∧ (s.processorAlive = true →
      (turtlebot4Start s).processorCreations = s.processorCreations
        ∧ (go2Start hasChannel s).processorCreations = s.processorCreations
        ∧ (g1Start hasChannel s).processorCreations = s.processorCreations
        ∧ (tronStart hasTopic s).processorCreations = s.processorCreations) := by
  constructor
  · intro h
    refine ⟨?_, ?_, ?_, ?_⟩ <;>
      simp [turtlebot4Start, go2Start, g1Start, tronStart, h]
  · intro h
    refine ⟨?_, ?_, ?_, ?_⟩ <;>
      · simp only [turtlebot4Start, go2Start, g1Start, tronStart, h]
        split_ifs <;> rfl

/-- Witness for C9: a fully running provider (both units alive). -/
theorem spec_c9_start_idempotent_witness :
    turtlebot4Start ⟨true, true, 1, 1⟩ = ⟨true, true, 1, 1⟩
    ∧ (go2Start true ⟨true, true, 1, 1⟩).processorCreations = 1 :=
  ⟨((spec_c9_start_idempotent ⟨true, true, 1, 1⟩ true true).1 rfl).1,
   ((spec_c9_start_idempotent ⟨true, true, 1, 1⟩ true true).2 rfl).2.1⟩

/-- Argument passed to write_str_to_file: either the expected str payload
or a value of any other Python type. -/
inductive PyJsonArg
  | str (s : String)
  | notStr

/-- A model of the filesystem as seen by write_str_to_file: each path
maps to the file content if the file exists. File sizes are byte counts;
the log lines written here are ASCII so String.length is the byte size. -/
def FileSys : Type := String → Option String

/-- Appending to a file in mode "a": creates the file when absent. -/
def fsAppend (fs : FileSys) (f : String) (c : String) : FileSys :=
  fun g => if g = f then some (((fs f).getD "") ++ c) else fs g

/-- The writer fields of TurtleBot4RPLidarProvider used by
write_str_to_file: filename_current (possibly None) and
max_file_size_bytes (1024*1024 by default). -/
structure WriterState where
  filename_current : Option String
  max_file_size_bytes : ℕ

/-- The rotation condition of write_str_to_file (lines 177-181):
filename_current is not None, the file exists, and its size exceeds
max_file_size_bytes. -/
def rotationDue (w : WriterState) (fs : FileSys) : Prop :=
  match w.filename_current with
  | some f => (fs f).isSome = true ∧ ((fs f).getD "").length > w.max_file_size_bytes
  | none => False

/-- write_str_to_file (lines 164-188). Raises ValueError when the
argument is not a string; otherwise switches filename_current to the
freshly timestamped name (update_filename, passed in as newName) when the
current file has grown past max_file_size_bytes, then appends
json_line + "\n" to the current file when a filename is set. OS-level
I/O faults are outside this filesystem model. -/
def writeStrToFile (newName : String) (arg : PyJsonArg) (w : WriterState)
    (fs : FileSys) : Except String (WriterState × FileSys) :=
  match arg with
  | PyJsonArg.notStr => Except.error "Provided json_line must be a json string."
  | PyJsonArg.str json_line =>
    let w1 := match w.filename_current with
      | some f =>
        if (fs f).isSome = true ∧ ((fs f).getD "").length > w.max_file_size_bytes
        then { w with filename_current := newName }
        else w
      | none => w
    match w1.filename_current with
    | some f => Except.ok (w1, fsAppend fs f (json_line ++ "\x0a"))
    | none => Except.ok (w1, fs)

/-- C7. write_str_to_file raises exactly when its argument is not a
string; for a string it never raises, it switches to the fresh filename
exactly when the current file exceeds max_file_size_bytes, and it
appends json_line + "\n" to the (post-rotation) current file, so
re-reading that file yields the written line appended to the previous
content (the line itself for a fresh file). -/
theorem spec_c7_write_str_to_file (newName : String) (arg : PyJsonArg)
    (w : WriterState) (fs : FileSys) :
    ((∃ e, writeStrToFile newName arg w fs = Except.error e) ↔ arg = PyJsonArg.notStr)
    ∧ (∀ json_line, arg = PyJsonArg.str json_line →
      ∃ w1 fs1, writeStrToFile newName arg w fs = Except.ok (w1, fs1)
        ∧ (rotationDue w fs → w1.filename_current = some newName)
        ∧ (¬ rotationDue w fs → w1.filename_current = w.filename_current)
        ∧ (∀ f, w1.filename_current = some f →
            fs1 f = some (((fs f).getD "") ++ json_line ++ "\x0a"))
        ∧ (w1.filename_current = none → fs1 = fs)) := by
  constructor
  · constructor
    · rintro ⟨e, he⟩
      cases arg with
      | notStr => rfl
      | str json_line =>
        exfalso
        rcases hw : w.filename_current with _ | f
        · simp [writeStrToFile, hw] at he
        · by_cases hcond : ((fs f).isSome = true
              ∧ ((fs f).getD "").length > w.max_file_size_bytes)
          · simp [writeStrToFile, hw, hcond] at he
          · simp [writeStrToFile, hw, hcond] at he
    · rintro rfl
      exact ⟨"Provided json_line must be a json string.", rfl⟩
  · rintro json_line rfl
    rcases hw : w.filename_current with _ | f
    · refine ⟨w, fs, ?_, ?_, ?_, ?_, ?_⟩
      · simp [writeStrToFile, hw]
      · intro hrot
        simp [rotationDue, hw] at hrot
      · intro _
        exact hw
      · intro g hg
        rw [hw] at hg
        exact Option.noConfusion hg
      · intro _
        rfl
    · by_cases hcond : ((fs f).isSome = true
          ∧ ((fs f).getD "").length > w.max_file_size_bytes)
      · refine ⟨{ w with filename_current := some newName },
          fsAppend fs newName (json_line ++ "\x0a"), ?_, ?_, ?_, ?_, ?_⟩
        · simp [writeStrToFile, hw, hcond]
        · intro _
          rfl
        · intro hnrot
          exfalso
          apply hnrot
          simp only [rotationDue, hw]
          exact hcond
        · intro g hg
          injection hg with hg
          subst hg
          simp [fsAppend, String.append_assoc]
        · intro hnone
          exact Option.noConfusion hnone
      · refine ⟨w, fsAppend fs f (json_line ++ "\x0a"), ?_, ?_, ?_, ?_, ?_⟩
        · simp [writeStrToFile, hw, hcond]
        · intro hrot
          exfalso
          apply hcond
          simpa [rotationDue, hw] using hrot
        · intro _
          exact hw
        · intro g hg
          rw [hw] at hg
          injection hg with hg
          subst hg
          simp [fsAppend, String.append_assoc]
        · intro hnone
          rw [hw] at hnone
          exact Option.noConfusion hnone

/-- Witness for C7: writing a concrete JSON line with the writer pointing
at a fresh file dump/lidar_0Z.jsonl under the default 1 MiB limit. -/
theorem spec_c7_write_str_to_file_witness :
    ∃ w1 fs1,
      writeStrToFile "dump/lidar_1Z.jsonl" (PyJsonArg.str "[270.0, 0.5]")
          ⟨some "dump/lidar_0Z.jsonl", 1048576⟩ (fun _ => none)
        = Except.ok (w1, fs1)
      ∧ (rotationDue ⟨some "dump/lidar_0Z.jsonl", 1048576⟩ (fun _ => none) →
          w1.filename_current = some "dump/lidar_1Z.jsonl")
      ∧ (¬ rotationDue ⟨some "dump/lidar_0Z.jsonl", 1048576⟩ (fun _ => none) →
          w1.filename_current
            = WriterState.filename_current ⟨some "dump/lidar_0Z.jsonl", 1048576⟩)
      ∧ (∀ f, w1.filename_current = some f →
          fs1 f = some ((((fun _ => none : FileSys) f).getD "") ++ "[270.0, 0.5]" ++ "\x0a"))
      ∧ (w1.filename_current = none → fs1 = (fun _ => none : FileSys)) :=
  (spec_c7_write_str_to_file "dump/lidar_1Z.jsonl" (PyJsonArg.str "[270.0, 0.5]")
    ⟨some "dump/lidar_0Z.jsonl", 1048576⟩ (fun _ => none)).2 "[270.0, 0.5]" rfl

/-- Configuration of TurtleBot4RPLidarProvider.__init__ (lines 56-98):
robot half width, blanked angle ranges (in [-180, 180] degrees), the
relevance window, and the sensor mounting angle. -/
structure LidarConfig where
  half_width_robot : ℝ
  angles_blanked : List (ℝ × ℝ)
  relevant_distance_max : ℝ
  relevant_distance_min : ℝ
  sensor_mounting_angle : ℝ

/-- The provider defaults: 0.20 m half width, no blanked ranges, window
[0.08, 1.1] m, mounting angle 180 degrees. -/
def defaultLidarConfig : LidarConfig :=
  { half_width_robot := 0.20
    angles_blanked := []
    relevant_distance_max := 1.1
    relevant_distance_min := 0.08
    sensor_mounting_angle := 180.0 }

/-- DEGREES_TO_RADIANS = math.pi / 180.0. -/
def degToRad : ℝ := π / 180

/-- The ten candidate path bearings (line 126). -/
def path_angles : List ℝ := [-60, -45, -30, -15, 0, 15, 30, 45, 60, 180]

/-- np.linspace(a, b, num): num evenly spaced points from a to b
inclusive. -/
def linspace (a b : ℝ) (num : ℕ) : List ℝ :=
  (List.range num).map fun (i : ℕ) => a + (b - a) * (i : ℝ) / ((num - 1 : ℕ) : ℝ)

/-- _create_straight_path_from_angle (lines 488-514): a straight segment
of the given length from the origin towards (sin angle, cos angle),
sampled at num_points points. -/
def createStraightPathFromAngle (angle_degrees len : ℝ) (num_points : ℕ) :
    List ℝ × List ℝ :=
  let angle_rad := angle_degrees * π / 180
  let end_x := len * Real.sin angle_rad
  let end_y := len * Real.cos angle_rad
  (linspace 0 end_x num_points, linspace 0 end_y num_points)

/-- _initialize_paths (lines 516-528): the ten candidate paths, each of
length 1.0 sampled at 30 points. -/
def lidarPaths : List (List ℝ × List ℝ) :=
  path_angles.map fun a => createStraightPathFromAngle a 1.0 30

/-- The start point of candidate path i as read by _path_processor
(path_points[0][0], path_points[1][0]). -/
def pathStart (i : ℕ) : ℝ × ℝ :=
  ((lidarPaths.getD i ([], [])).1.headD 0, (lidarPaths.getD i ([], [])).2.headD 0)

/-- The end point of candidate path i as read by _path_processor
(path_points[0][-1], path_points[1][-1]). -/
def pathEnd (i : ℕ) : ℝ × ℝ :=
  ((lidarPaths.getD i ([], [])).1.getLastD 0, (lidarPaths.getD i ([], [])).2.getLastD 0)

/-- distance_point_to_line_segment (lines 530-576): point-to-segment
distance with the zero-length fallback and the projection parameter
clamped to [0, 1]. -/
def distance_point_to_line_segment (px py x1 y1 x2 y2 : ℝ) : ℝ :=
  let dx := x2 - x1
  let dy := y2 - y1
  if dx = 0 ∧ dy = 0 then Real.sqrt ((px - x1) ^ 2 + (py - y1) ^ 2)
  else
    let t := ((px - x1) * dx + (py - y1) * dy) / (dx * dx + dy * dy)
    let t1 := max 0 (min 1 t)
    let closest_x := x1 + t1 * dx
    let closest_y := y1 + t1 * dy
    Real.sqrt ((px - closest_x) ^ 2 + (py - closest_y) ^ 2)

/-- The mounting-angle correction of _path_processor (lines 268-273):
add the mounting angle and wrap into [0, 360). -/
def orientAngle (cfg : LidarConfig) (angle : ℝ) : ℝ :=
  let a := angle + cfg.sensor_mounting_angle
  if a ≥ 360 then a - 360 else if a < 0 then 360 + a else a

/-- The inner blanked-angle loop of _path_processor (lines 288-292):
for b in self.angles_blanked: if angle >= b[0] and angle <= b[1]:
continue. The continue statement targets this inner for-b loop, so both
branches simply proceed to the next range; the loop never causes the
point to be dropped, whatever the ranges are. -/
def blankedLoopDropsPoint (angle : ℝ) : List (ℝ × ℝ) → Bool
  | [] => false
  | b :: rest =>
    if angle ≥ b.1 ∧ angle ≤ b.2 then blankedLoopDropsPoint angle rest
    else blankedLoopDropsPoint angle rest

/-- Modelled from the spec (per-sweep step 2): a point whose converted
angle falls inside ANY blanked range is to be excluded from obstacle
consideration. Stated for comparison with blankedLoopDropsPoint, the
behaviour the code actually has. -/
def blankedExcludesSpec (angle : ℝ) (blanked : List (ℝ × ℝ)) : Prop :=
  ∃ b ∈ blanked, angle ≥ b.1 ∧ angle ≤ b.2

theorem blankedLoopDropsPoint_false (angle : ℝ) (l : List (ℝ × ℝ)) :
    blankedLoopDropsPoint angle l = false := by
  induction l with
  | nil => rfl
  | cons b rest ih =>
    simp only [blankedLoopDropsPoint]
    split_ifs <;> exact ih

/-- The per-point conversion loop of _path_processor (lines 264-307):
returns the raw rows [rounded angle, distance] (kept for every reading)
and the converted obstacle rows [x, y, angle, distance] (kept only for
readings inside the relevance window; the blanked-angle loop is the
ineffective one modelled by blankedLoopDropsPoint). -/
def scanConvert (cfg : LidarConfig) : List (ℝ × ℝ) → List (ℝ × ℝ) × List (ℝ × ℝ × ℝ × ℝ)
  | [] => ([], [])
  | (angle, distance) :: rest =>
    let restR := scanConvert cfg rest
    let d_m := distance
    let a1 := orientAngle cfg angle
    let raw_row := (round2 a1, d_m)
    if d_m > cfg.relevant_distance_max then (raw_row :: restR.1, restR.2)
    else if d_m < cfg.relevant_distance_min then (raw_row :: restR.1, restR.2)
    else
      let a2 := a1 - 180
      if blankedLoopDropsPoint a2 cfg.angles_blanked = true then
        (raw_row :: restR.1, restR.2)
      else
        let a_rad := (a2 + 180) * degToRad
        let v1 := d_m * Real.cos a_rad
        let v2 := d_m * Real.sin a_rad
        let x := -1 * v2
        let y := -1 * v1
        (raw_row :: restR.1, (x, y, a2, d_m) :: restR.2)

/-- The secondary obstacle source (D435Provider) as _path_processor sees
it: a running flag and a list of obstacle rows already in robot frame. -/
structure D435State where
  running : Bool
  obstacle : List (ℝ × ℝ × ℝ × ℝ)

/-- A D435 provider that is not running. -/
def noD435 : D435State := ⟨false, []⟩

/-- The angle column (index 2) of a converted obstacle row. -/
def angleOfPoint (p : ℝ × ℝ × ℝ × ℝ) : ℝ := p.2.2.1

/-- Insertion step for the angle sort. -/
def insertByAngle (p : ℝ × ℝ × ℝ × ℝ) :
    List (ℝ × ℝ × ℝ × ℝ) → List (ℝ × ℝ × ℝ × ℝ)
  | [] => [p]
  | q :: qs =>
    if angleOfPoint p ≤ angleOfPoint q then p :: q :: qs
    else q :: insertByAngle p qs

/-- The angle sort of _path_processor (lines 351-352,
array[:, 2].argsort()): reorder the rows into ascending angle order. -/
def sortByAngle : List (ℝ × ℝ × ℝ × ℝ) → List (ℝ × ℝ × ℝ × ℝ)
  | [] => []
  | p :: ps => insertByAngle p (sortByAngle ps)

/-- The inner candidate-path loop of _path_processor (lines 361-389) for
one obstacle point (x, y): walk the current possible paths in order; for
path 9 skip the point unless it is behind the robot (y < 0); return the
first path whose segment is closer to the point than half_width_robot
(the loop breaks there), or none. -/
def firstBlockedPath (cfg : LidarConfig) (x y : ℝ) : List ℕ → Option ℕ
  | [] => none
  | apath :: rest =>
    if apath = 9 ∧ y ≥ 0 then firstBlockedPath cfg x y rest
    else
      if distance_point_to_line_segment x y (pathStart apath).1 (pathStart apath).2
          (pathEnd apath).1 (pathEnd apath).2 < cfg.half_width_robot then
        some apath
      else firstBlockedPath cfg x y rest

/-- The outer point loop of _path_processor (lines 360-389): fold over
the sorted points, removing (np.setdiff1d) the first blocked path found
for each point from the possible set. -/
def prunePaths (cfg : LidarConfig) :
    List (ℝ × ℝ × ℝ × ℝ) → List ℕ → List ℕ
  | [], pp => pp
  | (x, y, _, _) :: rest, pp =>
    match firstBlockedPath cfg x y pp with
    | some p => prunePaths cfg rest (pp.filter fun q => q ≠ p)
    | none => prunePaths cfg rest pp

/-- The bucket loop of _path_processor (lines 401-409): p < 3 turn left,
3 <= p <= 5 advance, p < 9 turn right, p = 9 retreat. -/
def assignBuckets :
    List ℕ → List ℕ × List ℕ × List ℕ × Bool → List ℕ × List ℕ × List ℕ × Bool
  | [], acc => acc
  | p :: rest, (l, a, r, ret) =>
    if p < 3 then assignBuckets rest (l ++ [p], a, r, ret)
    else if p ≥ 3 ∧ p ≤ 5 then assignBuckets rest (l, a ++ [p], r, ret)
    else if p < 9 then assignBuckets rest (l, a, r ++ [p], ret)
    else if p = 9 then assignBuckets rest (l, a, r, true)
    else assignBuckets rest (l, a, r, ret)

/-- _generate_movement_string (lines 578-604). -/
def generateMovementString (advance valid_paths : List ℕ) : String :=
  if valid_paths = [] then
    "You are surrounded by objects and cannot safely move in any direction. DO NOT MOVE."
  else
    "The safe movement directions are: \x7b" ++ "\x27turn left\x27, \x27turn right\x27, "
      ++ (if advance ≠ [] then "\x27move forwards\x27, " else "")
      ++ "\x27stand still\x27\x7d. "

/-- The cached per-sweep outputs of the provider (__init__ lines
104-137): raw scan (None before the first sweep), summary string, valid
paths, the four buckets, and the cached angle tables of
_zenoh_processor. -/
structure LidarScanState where
  raw_scan : Option (List (ℝ × ℝ × ℝ × ℝ))
  lidar_string : Option String
  valid_paths : Option (List ℕ)
  turn_left : List ℕ
  turn_right : List ℕ
  advance : List ℕ
  retreat : Bool
  angles : Option (List ℝ)
  angles_final : Option (List ℝ)

/-- The initial cached state set in __init__. -/
def initLidarScanState : LidarScanState :=
  { raw_scan := none
    lidar_string := none
    valid_paths := none
    turn_left := []
    turn_right := []
    advance := []
    retreat := false
    angles := none
    angles_final := none }

/-- _path_processor (lines 248-419): convert the sweep, merge the D435
obstacles when it is running with more than 50 points, start from
possible_paths = np.array([4]) (line 346), sort and prune when any
converted point survives (array.ndim > 1), partition into buckets,
produce the summary string, and cache raw scan / string / valid paths.
The best-effort file logging of the raw rows (lines 326-336) is modelled
separately by writeStrToFile. -/
def pathProcessor (cfg : LidarConfig) (d435 : D435State) (data : List (ℝ × ℝ))
    (s : LidarScanState) : LidarScanState :=
  let conv := scanConvert cfg data
  let complexes :=
    if d435.running = true ∧ d435.obstacle.length > 50 then conv.2 ++ d435.obstacle
    else conv.2
  let possible0 : List ℕ := [4]
  let array := if complexes ≠ [] then sortByAngle complexes else complexes
  let possible := if complexes ≠ [] then prunePaths cfg array possible0 else possible0
  let buckets := assignBuckets possible ([], [], [], false)
  let return_string := generateMovementString buckets.2.1 possible
  { s with
    raw_scan := some array
    lidar_string := some return_string
    valid_paths := some possible
    turn_left := buckets.1
    advance := buckets.2.1
    turn_right := buckets.2.2.1
    retreat := buckets.2.2.2 }

/-- A Zenoh LaserScan message as read by _zenoh_processor. -/
structure LaserScanMsg where
  angle_min : ℝ
  angle_max : ℝ
  angle_increment : ℝ
  ranges : List ℝ

/-- np.arange(a, b, step): ceil((b - a)/step) points a + k*step. -/
def npArange (a b step : ℝ) : List ℝ :=
  (List.range ⌈(b - a) / step⌉₊).map fun k => a + (k : ℝ) * step

/-- The angle table computed by _zenoh_processor (lines 231-238):
360*(x + pi)/(2*pi) over np.arange(angle_min, angle_max,
angle_increment). -/
def scanAngles (sc : LaserScanMsg) : List ℝ :=
  (npArange sc.angle_min sc.angle_max sc.angle_increment).map fun x =>
    360.0 * (x + π) / (2 * π)

/-- _zenoh_processor (lines 212-246). With no scan (None) it caches the
degraded-safety outputs: no raw scan, the DO-NOT-MOVE sentence and an
empty valid-path list, and returns. With a scan it fills the angle cache
on first use (if not self.angles), zips the flipped angles with the
ranges and hands the pairs to _path_processor. -/
def zenohProcessor (cfg : LidarConfig) (d435 : D435State)
    (scan : Option LaserScanMsg) (s : LidarScanState) : LidarScanState :=
  match scan with
  | none =>
    { s with
      raw_scan := none
      lidar_string :=
        some "You might be surrounded by objects and cannot safely move in any direction. DO NOT MOVE."
      valid_paths := some [] }
  | some sc =>
    let s1 :=
      if s.angles = none ∨ s.angles = some [] then
        { s with
          angles := some (scanAngles sc)
          angles_final := some (scanAngles sc).reverse }
      else s
    let data := match s1.angles_final with
      | some af => af.zip sc.ranges
      | none => []
    pathProcessor cfg d435 data s1

/-- C3. Invoked with no scan available, the LIDAR processor sets
valid_paths to the empty list, clears the raw scan, and sets
lidar_string to the degraded-safety sentence, which contains both the
"cannot safely move" and the "DO NOT MOVE" phrases. -/
theorem spec_c3_no_scan (cfg : LidarConfig) (d435 : D435State) (s : LidarScanState) :
    (zenohProcessor cfg d435 none s).valid_paths = some []
    ∧ (zenohProcessor cfg d435 none s).raw_scan = none
    ∧ (zenohProcessor cfg d435 none s).lidar_string
        = some "You might be surrounded by objects and cannot safely move in any direction. DO NOT MOVE."
    ∧ (∃ p q, (zenohProcessor cfg d435 none s).lidar_string
        = some (p ++ "cannot safely move" ++ q))
    ∧ (∃ p q, (zenohProcessor cfg d435 none s).lidar_string
        = some (p ++ "DO NOT MOVE" ++ q)) :=
  ⟨rfl, rfl, rfl,
    ⟨"You might be surrounded by objects and ", " in any direction. DO NOT MOVE.", rfl⟩,
    ⟨"You might be surrounded by objects and cannot safely move in any direction. ",
      ".", rfl⟩⟩

theorem linspace_headD (a b : ℝ) (n : ℕ) (h : n ≠ 0) : (linspace a b n).headD 0 = a := by
  obtain ⟨m, rfl⟩ := Nat.exists_eq_succ_of_ne_zero h
  rw [linspace, List.range_succ_eq_map]
  simp

theorem linspace_getLastD (a b : ℝ) (n : ℕ) (h : 2 ≤ n) : (linspace a b n).getLastD 0 = b := by
  obtain ⟨m, rfl⟩ : ∃ m, n = m + 1 := ⟨n - 1, by omega⟩
  have hm : m ≠ 0 := by omega
  rw [linspace, List.range_succ, List.map_append]
  simp only [List.map_cons, List.map_nil]
  rw [List.getLastD_concat]
  have hmr : ((m : ℝ)) ≠ 0 := Nat.cast_ne_zero.mpr hm
  have e1 : (m + 1 - 1 : ℕ) = m := by omega
  rw [e1]
  field_simp

theorem lidarPaths_getD_four :
    lidarPaths.getD 4 ([], []) = createStraightPathFromAngle 0 1.0 30 := by
  simp [lidarPaths, path_angles]

theorem pathStart_four : pathStart 4 = (0, 0) := by
  rw [pathStart, lidarPaths_getD_four, createStraightPathFromAngle]
  simp only
  rw [linspace_headD _ _ 30 (by norm_num), linspace_headD _ _ 30 (by norm_num)]

theorem pathEnd_four : pathEnd 4 = (0, 1) := by
  rw [pathEnd, lidarPaths_getD_four, createStraightPathFromAngle]
  simp only
  rw [linspace_getLastD _ _ 30 (by norm_num), linspace_getLastD _ _ 30 (by norm_num)]
  norm_num

theorem dist_beside_forward : distance_point_to_line_segment 0.5 0 0 0 0 1 = 0.5 := by
  simp only [distance_point_to_line_segment]
  rw [if_neg (by norm_num)]
  norm_num [min_def, max_def]
  rw [show (4 : ℝ) = 2 ^ 2 by norm_num, Real.sqrt_sq (by norm_num : (0:ℝ) ≤ 2)]
  norm_num

theorem dist_on_forward : distance_point_to_line_segment 0 0.5 0 0 0 1 = 0 := by
  simp only [distance_point_to_line_segment]
  rw [if_neg (by norm_num)]
  norm_num [min_def, max_def]

theorem orientAngle_default_90 : orientAngle defaultLidarConfig 90 = 270 := by
  simp only [orientAngle, defaultLidarConfig]
  norm_num

theorem orientAngle_default_0 : orientAngle defaultLidarConfig 0 = 180 := by
  simp only [orientAngle, defaultLidarConfig]
  norm_num

/-- The configuration used to exercise the blanked-angle logic: the
defaults plus a single blanked range [-10, 10] around robot-forward. -/
def blankedTestConfig : LidarConfig :=
  { defaultLidarConfig with angles_blanked := [(-10, 10)] }

theorem orientAngle_blanked_0 : orientAngle blankedTestConfig 0 = 180 := by
  simp only [orientAngle, blankedTestConfig, defaultLidarConfig]
  norm_num

theorem round2_270 : round2 270 = 270 := by
  rw [round2, show (270 : ℝ) * 100 = ((27000 : ℤ) : ℝ) by norm_num, roundHalfEven_intCast]
  norm_num

theorem round2_180 : round2 180 = 180 := by
  rw [round2, show (180 : ℝ) * 100 = ((18000 : ℤ) : ℝ) by norm_num, roundHalfEven_intCast]
  norm_num

theorem cos_270_degToRad : Real.cos (270 * degToRad) = 0 := by
  rw [degToRad, show (270 : ℝ) * (π / 180) = π + π / 2 by ring, Real.cos_add]
  simp

theorem sin_270_degToRad : Real.sin (270 * degToRad) = -1 := by
  rw [degToRad, show (270 : ℝ) * (π / 180) = π + π / 2 by ring, Real.sin_add]
  simp

theorem cos_180_degToRad : Real.cos (180 * degToRad) = -1 := by
  rw [degToRad, show (180 : ℝ) * (π / 180) = π by ring, Real.cos_pi]

theorem sin_180_degToRad : Real.sin (180 * degToRad) = 0 := by
  rw [degToRad, show (180 : ℝ) * (π / 180) = π by ring, Real.sin_pi]

theorem scanConvert_single (cfg : LidarConfig) (angle d : ℝ)
    (h1 : ¬ d > cfg.relevant_distance_max) (h2 : ¬ d < cfg.relevant_distance_min) :
    scanConvert cfg [(angle, d)]
      = ([(round2 (orientAngle cfg angle), d)],
         [(-1 * (d * Real.sin (orientAngle cfg angle * degToRad)),
           -1 * (d * Real.cos (orientAngle cfg angle * degToRad)),
           orientAngle cfg angle - 180, d)]) := by
  simp only [scanConvert, blankedLoopDropsPoint_false]
  rw [if_neg h1, if_neg h2, if_neg (by simp)]
  rw [sub_add_cancel]

theorem scanConvert_right_point :
    scanConvert defaultLidarConfig [(90, 0.5)] = ([(270, 0.5)], [(0.5, 0, 90, 0.5)]) := by
  rw [scanConvert_single _ _ _ (by norm_num [defaultLidarConfig])
    (by norm_num [defaultLidarConfig]), orientAngle_default_90, round2_270,
    sin_270_degToRad, cos_270_degToRad]
  norm_num

theorem scanConvert_forward_point :
    scanConvert defaultLidarConfig [(0, 0.5)] = ([(180, 0.5)], [(0, 0.5, 0, 0.5)]) := by
  rw [scanConvert_single _ _ _ (by norm_num [defaultLidarConfig])
    (by norm_num [defaultLidarConfig]), orientAngle_default_0, round2_180,
    sin_180_degToRad, cos_180_degToRad]
  norm_num

theorem scanConvert_blanked_forward_point :
    scanConvert blankedTestConfig [(0, 0.5)] = ([(180, 0.5)], [(0, 0.5, 0, 0.5)]) := by
  rw [scanConvert_single _ _ _ (by norm_num [blankedTestConfig, defaultLidarConfig])
    (by norm_num [blankedTestConfig, defaultLidarConfig]), orientAngle_blanked_0,
    round2_180, sin_180_degToRad, cos_180_degToRad]
  norm_num

theorem prunePaths_right_point :
    prunePaths defaultLidarConfig [(0.5, 0, 90, 0.5)] [4] = [4] := by
  simp only [prunePaths, firstBlockedPath]
  rw [if_neg (by norm_num), pathStart_four, pathEnd_four]
  simp only
  rw [dist_beside_forward, if_neg (by norm_num [defaultLidarConfig])]

theorem prunePaths_forward_point (cfg : LidarConfig) (hw : cfg.half_width_robot = 0.20) :
    prunePaths cfg [(0, 0.5, 0, 0.5)] [4] = [] := by
  simp only [prunePaths, firstBlockedPath]
  rw [if_neg (by norm_num), pathStart_four, pathEnd_four]
  simp only
  rw [dist_on_forward, if_pos (by rw [hw]; norm_num)]
  rfl

/-- C1 (code bug). A sweep whose single surviving obstacle point lies at
converted angle 90 degrees, 0.5 m to the side — too far from every
candidate segment to block anything — should leave all ten paths viable,
but _path_processor initializes possible_paths to np.array([4]) (line
346), so it only ever evaluates path 4 and reports valid_paths = [4],
never the full identifier set 0..9 promised by its own docstring. -/
theorem spec_c1_only_path_four_evaluated :
    (pathProcessor defaultLidarConfig noD435 [(90, 0.5)] initLidarScanState).valid_paths
        = some [4]
    ∧ (pathProcessor defaultLidarConfig noD435 [(90, 0.5)] initLidarScanState).valid_paths
        ≠ some [0, 1, 2, 3, 4, 5, 6, 7, 8, 9] := by
  have h : (pathProcessor defaultLidarConfig noD435 [(90, 0.5)] initLidarScanState).valid_paths
      = some [4] := by
    simp [pathProcessor, scanConvert_right_point, noD435, sortByAngle, insertByAngle,
      prunePaths_right_point]
  exact ⟨h, by rw [h]; simp⟩

/-- C2 (code bug). The converted angle 0 lies inside the blanked range
[-10, 10], so per the spec the point must never contribute to removing a
path (while staying in the raw rows). The raw row is indeed retained,
but the inner blanked-angle loop never drops a point (its continue only
advances the inner loop), so the blanked point still removes the forward
path and valid_paths comes back empty. -/
theorem spec_c2_blanked_point_still_blocks :
    blankedExcludesSpec 0 [(-10, 10)]
    ∧ blankedLoopDropsPoint 0 [(-10, 10)] = false
    ∧ (scanConvert blankedTestConfig [(0, 0.5)]).1 = [(180, 0.5)]
    ∧ (pathProcessor blankedTestConfig noD435 [(0, 0.5)] initLidarScanState).valid_paths
        = some [] := by
  refine ⟨⟨(-10, 10), by simp, by norm_num, by norm_num⟩,
    blankedLoopDropsPoint_false 0 _, by rw [scanConvert_blanked_forward_point], ?_⟩
  simp [pathProcessor, scanConvert_blanked_forward_point, noD435, sortByAngle,
    insertByAngle, prunePaths_forward_point blankedTestConfig rfl]

/-- C6 (code bug). A single obstacle directly ahead (converted angle 0,
0.5 m) blocks the forward path, and the claim says the 180-degree
retreat path must stay viable since the obstacle is not behind the
robot. But possible_paths starts as np.array([4]): path 9 is never in
the candidate set, so retreat is always False and valid_paths comes back
empty rather than retaining the retreat path. -/
theorem spec_c6_retreat_not_viable :
    (pathProcessor defaultLidarConfig noD435 [(0, 0.5)] initLidarScanState).retreat = false
    ∧ (pathProcessor defaultLidarConfig noD435 [(0, 0.5)] initLidarScanState).valid_paths
        = some []
    ∧ (pathProcessor defaultLidarConfig noD435 [(0, 0.5)] initLidarScanState).advance = [] := by
  refine ⟨?_, ?_, ?_⟩ <;>
    simp [pathProcessor, scanConvert_forward_point, noD435, sortByAngle, insertByAngle,
      prunePaths_forward_point defaultLidarConfig rfl, assignBuckets]
